import Mathlib

/-!
Shallow embedding of the report-generation pipeline of `server.py`
(team-reports MCP server) and proofs about its claims.

Dates are modelled as day numbers (days since 1970-01-01, an `Int`),
which is faithful to Python `datetime` at day granularity: `strptime`
/`strftime` convert between `YYYY-MM-DD` strings and such day numbers,
`timedelta(days = n)` is subtraction, and `weekday()` (Monday = 0) is a
residue mod 7.  The civil-calendar conversion below follows the standard
days-from-civil / civil-from-days algorithms on the proleptic Gregorian
calendar, so concrete dates evaluate to their real calendar values.
-/

namespace TeamReports

/-- Day number (days since 1970-01-01) of a civil date y-m-d. -/
def daysFromCivil (y : Int) (m d : Nat) : Int :=
  let y' : Int := if m ≤ 2 then y - 1 else y
  let era : Int := y'.fdiv 400
  let yoe : Nat := (y' - era * 400).toNat
  let mp : Nat := (m + 9) % 12
  let doy : Nat := (153 * mp + 2) / 5 + d - 1
  let doe : Nat := yoe * 365 + yoe / 4 - yoe / 100 + doy
  era * 146097 + (doe : Int) - 719468

/-- Civil date (year, month, day) of a day number. -/
def civilFromDays (z0 : Int) : Int × Nat × Nat :=
  let z : Int := z0 + 719468
  let era : Int := z.fdiv 146097
  let doe : Nat := (z - era * 146097).toNat
  let yoe : Nat := (doe - doe / 1460 + doe / 36524 - doe / 146096) / 365
  let y : Int := (yoe : Int) + era * 400
  let doy : Nat := doe - (365 * yoe + yoe / 4 - yoe / 100)
  let mp : Nat := (5 * doy + 2) / 153
  let d : Nat := doy - (153 * mp + 2) / 5 + 1
  let m : Nat := if mp < 10 then mp + 3 else mp - 9
  (if m ≤ 2 then y + 1 else y, m, d)

/-- Python `datetime.weekday()`: Monday = 0 ... Sunday = 6.
1970-01-01 (day 0) was a Thursday (= 3). -/
def pyWeekday (d : Int) : Int := (d + 3) % 7

/-- Python `%A`: full weekday name. -/
def weekdayName (w : Int) : String :=
  if w = 0 then "Monday"
  else if w = 1 then "Tuesday"
  else if w = 2 then "Wednesday"
  else if w = 3 then "Thursday"
  else if w = 4 then "Friday"
  else if w = 5 then "Saturday"
  else "Sunday"

/-- Zero-pad a natural number to two digits (strftime month/day). -/
def pad2 (n : Nat) : String :=
  if n < 10 then "0" ++ toString n else toString n

/-- Zero-pad a natural number to four digits (strftime year). -/
def pad4 (n : Nat) : String :=
  if n < 10 then "000" ++ toString n
  else if n < 100 then "00" ++ toString n
  else if n < 1000 then "0" ++ toString n
  else toString n

/-- Python strftime with format "%Y-%m-%d" on a day number. -/
def dateToStr (d : Int) : String :=
  let c := civilFromDays d
  pad4 c.1.toNat ++ "-" ++ pad2 c.2.1 ++ "-" ++ pad2 c.2.2

/-- Function `get_week_range` (server.py lines 56-88), at day-number granularity.
`start_date` / `end_date` are the caller-supplied dates (already parsed;
`none` = argument absent) and `today` is `datetime.now()`.
Returns the `(start, end)` strings, or the `ValueError` message. -/
def get_week_range (start_date end_date : Option Int) (today : Int) :
    Except String (String × String) :=
  let startRes : Except String Int :=
    match start_date with
    | some s =>
      if pyWeekday s = 2 then .ok s
      else .error ("start_date must be a Wednesday. " ++ dateToStr s ++
                   " is a " ++ weekdayName (pyWeekday s))
    | none => .ok today
  match startRes with
  | .error e => .error e
  | .ok start =>
    match end_date with
    | some e =>
      if pyWeekday e = 1 then .ok (dateToStr start, dateToStr e)
      else .error ("end_date must be a Tuesday. " ++ dateToStr e ++
                   " is a " ++ weekdayName (pyWeekday e))
    | none => .ok (dateToStr start, dateToStr (start - 7))

/-!
Configuration values.  A parsed YAML document is a nested structure of
mappings, lists and scalars; Python `dict`s are modelled as association
lists in insertion order (assignment to an existing key keeps its
position, a new key is appended), which matches CPython semantics.
-/

/-- A parsed YAML value. -/
inductive YVal where
  | s (v : String) : YVal
  | i (v : Int) : YVal
  | b (v : Bool) : YVal
  | lst (v : List YVal) : YVal
  | map (v : List (String × YVal)) : YVal

/-- A Python dict of YAML values, in insertion order. -/
abbrev YDict := List (String × YVal)

/-- Dict lookup (first binding wins, as in a Python dict without
duplicate keys). -/
def ylookup (m : YDict) (k : String) : Option YVal :=
  match m with
  | [] => none
  | (k', v) :: rest => if k' = k then some v else ylookup rest k

/-- Python `base[key] = value`: replace the value of an existing key in
place, else append the new binding. -/
def ystore (m : YDict) (k : String) (v : YVal) : YDict :=
  match m with
  | [] => [(k, v)]
  | (k', v') :: rest =>
    if k' = k then (k', v) :: rest else (k', v') :: ystore rest k v

/-- Function `deep_update` (server.py lines 278-284): for each key of `updates`,
merge recursively when both sides hold dicts, otherwise overwrite. -/
def deep_update : YDict → YDict → YDict
  | base, [] => base
  | base, (k, .map um) :: rest =>
    match ylookup base k with
    | some (.map bm) => deep_update (ystore base k (.map (deep_update bm um))) rest
    | _ => deep_update (ystore base k (.map um)) rest
  | base, (k, v) :: rest => deep_update (ystore base k v) rest
termination_by _ updates => sizeOf updates
decreasing_by
  all_goals simp only [List.cons.sizeOf_spec, Prod.mk.sizeOf_spec,
    YVal.map.sizeOf_spec]
  all_goals omega

/-- Function `merge_config_with_defaults` (server.py lines 247-289).
`defaults` is the parsed content of the default config file
(`none` when the file is missing or unreadable, which degrades to `{}`);
`config_overrides` is the caller-supplied override dict (`none` = absent). -/
def merge_config_with_defaults (config_overrides : Option YDict)
    (defaults : Option YDict) (config_key : String) : YDict :=
  let config : YDict := match defaults with | some d => d | none => []
  match config_overrides with
  | none => config
  | some ov =>
    match ylookup ov config_key with
    | some (.map override_values) => deep_update config override_values
    | _ => config

/-- Whether a value can serve as a dict key (CPython hashability for the
value shapes a JSON tool call can supply): lists and dicts cannot. -/
def hashable : YVal → Bool
  | .lst _ => false
  | .map _ => false
  | _ => true

/-- Whether a value is accepted as one key/value pair by `dict.update`
when merging from an iterable: a length-2 sequence — a two-element list
with a hashable key, a two-character string, or a two-entry mapping
(whose iteration yields its two keys). -/
def pairlike : YVal → Bool
  | .s t => t.length == 2
  | .lst [k, _] => hashable k
  | .lst _ => false
  | .map m => m.length == 2
  | _ => false

/-- Whether `config[key].update(value)` succeeds on a dict base:
mappings always merge; a string iterates its characters, each a
length-1 string, so exactly the non-empty strings raise; a list merges
iff every element is pairlike; numbers and booleans are not iterable
and raise. -/
def dict_updatable : YVal → Bool
  | .map _ => true
  | .s t => t.isEmpty
  | .lst items => items.all pairlike
  | _ => false

/-- The exception text for the first non-pairlike element of a list
passed to `dict.update`, following CPython's wording.  No theorem
depends on this wording. -/
def lst_raise_msg : List YVal → Nat → String
  | [], _ => ""
  | item :: rest, i =>
    if pairlike item then lst_raise_msg rest (i + 1)
    else
      match item with
      | .s t => "dictionary update sequence element #" ++ toString i
          ++ " has length " ++ toString t.length ++ "; 2 is required"
      | .lst [.lst _, _] => "unhashable type: \x27list\x27"
      | .lst [.map _, _] => "unhashable type: \x27dict\x27"
      | .lst l => "dictionary update sequence element #" ++ toString i
          ++ " has length " ++ toString l.length ++ "; 2 is required"
      | .map m => "dictionary update sequence element #" ++ toString i
          ++ " has length " ++ toString m.length ++ "; 2 is required"
      | _ => "cannot convert dictionary update sequence element #"
          ++ toString i ++ " to a sequence"

/-- The `str(e)` of the TypeError/ValueError raised by
`config[key].update(value)`, following CPython's wording for the value
shapes a JSON tool call can supply.  No theorem depends on this
wording. -/
def update_raise_msg : YVal → String
  | .i _ => "\x27int\x27 object is not iterable"
  | .b _ => "\x27bool\x27 object is not iterable"
  | .s _ => "dictionary update sequence element #0 has length 1; 2 is required"
  | .map _ => ""
  | .lst items => lst_raise_msg items 0

/-- The raising behavior of the override-application loop of
`load_config_with_overrides` (server.py lines 140-147), as called on
line 985: scanning the override entries in insertion order, an entry
whose key names one of the three base sources ("jira", "github",
"team") is applied with `config[key].update(value)` — which raises when
the value does not merge — while any other key is stored verbatim and
never raises.  Returns the first raising value, if any.  (The three
base values are dicts: they are initialized to `{}` and config files
are modelled as holding mappings when readable.) -/
def first_bad_override : YDict → Option YVal
  | [] => none
  | (k, v) :: rest =>
    if (k == "jira" || k == "github" || k == "team") && !dict_updatable v
    then some v
    else first_bad_override rest

/-- Whether the `load_config_with_overrides` call on server.py line 985
raises, and on which value: its returned config is unused, but the
override application runs only when `config_overrides` is truthy and
can raise per `first_bad_override`.  The exception propagates to the
outer handler of `_generate_weekly_status`. -/
def load_config_first_raise (config_overrides : Option YDict) : Option YVal :=
  match config_overrides with
  | none => none
  | some ov => if ov.isEmpty then none else first_bad_override ov

/-!
String-level helpers of the pipeline.
-/

/-- Python truthiness of an optional string: `None` and `""` are falsy. -/
def truthy : Option String → Bool
  | none => false
  | some s => !s.isEmpty

/-- The default AI summary prompt (server.py lines 39-54). -/
def DEFAULT_SUMMARY_PROMPT : String :=
  "Based on the following weekly team report, generate an executive summary highlighting:\n\n1. Key Accomplishments: Major milestones and completed work\n2. Team Velocity: Overall productivity and throughput metrics\n3. Blockers & Risks: Issues requiring attention or escalation\n4. Notable Trends: Patterns in team performance or workload\n\nKeep the summary concise (3-5 paragraphs) and action-oriented.\n\n---\n\n{report_content}\n\n---\n\nPlease provide the executive summary:"

/-- The report filename (server.py line 167). -/
def report_filename (start_date end_date : String) : String :=
  "Weekly_Report_" ++ start_date ++ "_to_" ++ end_date ++ ".md"

/-- The reports directory (server.py lines 164-166); a fixed location
relative to the server file. -/
def reportsDir : String := "Reports"

/-- Function `get_report_path` (server.py lines 152-168), as the path string.
The directory-creation side effect has no bearing on the returned path. -/
def get_report_path (start_date end_date : String) : String :=
  reportsDir ++ "/" ++ report_filename start_date end_date

def lcurly : Char := Char.ofNat 123

def rcurly : Char := Char.ofNat 125

/-- Scanner state for `str.format`. -/
inductive FmtState where
  | normal
  | afterL
  | afterR
  | inField (acc : String)

/-- One step of the `str.format` scanner: doubled braces are literal
braces, a braced field named `report_content` is replaced by `arg`, any
other field or unbalanced brace raises (modelled as `none`).  (CPython
would additionally accept a `report_content` field carrying a conversion
or format spec; the templates this program handles use the bare field,
so such fields are modelled as failures.) -/
def pyFormatStep (arg : String) (st : FmtState × String) (c : Char) :
    Option (FmtState × String) :=
  match st with
  | (.normal, out) =>
    if c = lcurly then some (.afterL, out)
    else if c = rcurly then some (.afterR, out)
    else some (.normal, out.push c)
  | (.afterL, out) =>
    if c = lcurly then some (.normal, out.push lcurly)
    else if c = rcurly then none
    else some (.inField (String.mk [c]), out)
  | (.afterR, out) =>
    if c = rcurly then some (.normal, out.push rcurly) else none
  | (.inField acc, out) =>
    if c = rcurly then
      if acc = "report_content" then some (.normal, out ++ arg) else none
    else some (.inField (acc.push c), out)

/-- Python `template.format(report_content = arg)`; `none` models a
raised `KeyError` / `ValueError` / `IndexError`. -/
def pyFormat (template arg : String) : Option String :=
  match template.toList.foldlM (pyFormatStep arg) (FmtState.normal, "") with
  | some (.normal, out) => some out
  | _ => none

/-- The executive-summary block appended to the report (server.py
lines 1126-1136); note it interpolates the raw `prompt`. -/
def summaryBlock (prompt : String) : String :=
  "\n\n---\n\n## Executive Summary\n\n> **Note:** To generate an AI-powered executive summary, process the above report with the following prompt:\n\n"
  ++ prompt ++ "\n\n"

/-- Prompt selection (server.py line 1121): the caller-supplied prompt
when truthy, else the fixed default. -/
def select_prompt (summary_prompt : Option String) : String :=
  match summary_prompt with
  | some p => if p.isEmpty then DEFAULT_SUMMARY_PROMPT else p
  | none => DEFAULT_SUMMARY_PROMPT

/-- The summary-enrichment step (server.py lines 1115-1140): selects the
caller prompt when truthy else the default, runs `format` on it (whose
result `prompt_with_report` the code never uses), and on `format`
success appends the block containing the unfilled `prompt`; a `format`
failure is caught and leaves the report unchanged. -/
def enrich (generate_summary : Bool) (summary_prompt : Option String)
    (combined : String) : String :=
  if generate_summary then
    match pyFormat (select_prompt summary_prompt) combined with
    | some _ => combined ++ summaryBlock (select_prompt summary_prompt)
    | none => combined
  else combined

/-- The per-source section text: the collaborator's report on success,
the inline error marker on failure (server.py lines 1055-1086). -/
def jiraSection : Except String String → String
  | .ok r => r
  | .error e => "**Error generating Jira report:** " ++ e ++ "\n\n"

def githubSection : Except String String → String
  | .ok r => r
  | .error e => "**Error generating GitHub report:** " ++ e ++ "\n\n"

/-- The combined report document (server.py lines 1099-1113). -/
def combined_report_text (calc_start calc_end jira_report github_report
    now_stamp : String) : String :=
  "# Weekly Team Status Report\n## Period: " ++ calc_start ++ " to " ++ calc_end
  ++ "\n\n---\n\n" ++ jira_report ++ "\n\n---\n\n" ++ github_report
  ++ "\n\n---\n\n*Report generated: " ++ now_stamp ++ "*\n"

/-!
The `_generate_weekly_status` pipeline (server.py lines 939-1165).
External effects are supplied through an environment record and the
observable effects of a run are collected in a result record.
-/

/-- The tool-call arguments of `generate_weekly_status`.  Dates arrive
already parsed as day numbers (`none` = argument absent). -/
structure Args where
  github_token : Option String
  start_date : Option Int
  end_date : Option Int
  regenerate : Bool
  generate_summary : Bool
  summary_prompt : Option String
  config_overrides : Option YDict

/-- The external world a single run observes: environment variables,
the clock, the cache lookup result for the requested window, the parsed
default config files, and the outcomes of the fallible external steps
(library import, temp-file creation, the two collaborators, the save,
and temp-file removal). -/
structure Env where
  jira_server : Option String
  jira_email : Option String
  jira_api_token : Option String
  github_token_env : Option String
  today : Int
  now_stamp : String
  existing_report : Option String
  jira_defaults : Option YDict
  github_defaults : Option YDict
  import_ok : Bool
  import_err : String
  jira_temp_name : String
  github_temp_name : String
  jira_mkstemp_ok : Bool
  github_mkstemp_ok : Bool
  mkstemp_err : String
  jira_result : Except String String
  github_result : Except String String
  save_ok : Bool
  save_err : String
  unlink_fails : List String

/-- The observable outcome of one run: the returned text and the
effects performed (collaborator invocations in order, temp config files
created and successfully removed, and the file written by
`save_report`). -/
structure RunResult where
  text : String
  invoked : List String
  temp_created : List String
  temp_removed : List String
  saved : Option (String × String)

/-- A result that performed no external effect. -/
def emptyEffects (t : String) : RunResult :=
  { text := t, invoked := [], temp_created := [], temp_removed := [],
    saved := none }

/-- Outcome of the try-block of the aggregation stage (server.py lines
1030-1086): temp files created so far, collaborators invoked, and either
the two section texts or a propagating exception message. -/
structure AggOutcome where
  created : List String
  invoked : List String
  body : Except String (String × String)

/-- Both collaborators run (each internally shielded, server.py lines
1053-1086), so the try-block body always completes once temp-file
creation is past. -/
def agg_finish (env : Env) (created : List String) : AggOutcome :=
  { created := created, invoked := ["jira", "github"],
    body := .ok (jiraSection env.jira_result, githubSection env.github_result) }

/-- GitHub half of the temp-file materialization (server.py lines
1043-1051): a temp file only when the merged config is non-empty;
`create_temp_config_file` may itself raise. -/
def agg_github (env : Env) (ov : YDict) (created1 : List String) : AggOutcome :=
  let github_config := merge_config_with_defaults (some ov) env.github_defaults "github"
  if github_config.isEmpty then agg_finish env created1
  else if env.github_mkstemp_ok then
    agg_finish env (created1 ++ [env.github_temp_name])
  else { created := created1, invoked := [], body := .error env.mkstemp_err }

/-- The aggregation try-block (server.py lines 1030-1086): temp config
materialization (only when `config_overrides` is truthy) followed by the
two collaborator calls. -/
def aggregate (a : Args) (env : Env) : AggOutcome :=
  match a.config_overrides with
  | none => agg_finish env []
  | some ov =>
    if ov.isEmpty then agg_finish env []
    else
      let jira_config := merge_config_with_defaults (some ov) env.jira_defaults "jira"
      if jira_config.isEmpty then agg_github env ov []
      else if env.jira_mkstemp_ok then agg_github env ov [env.jira_temp_name]
      else { created := [], invoked := [], body := .error env.mkstemp_err }

/-- Parameter takes precedence over the environment variable, with
Python truthiness (server.py lines 993-994). -/
def effective_github_token (a : Args) (env : Env) : Option String :=
  if truthy a.github_token then a.github_token else env.github_token_env

/-- The missing-credentials list (server.py lines 997-1005), in the
order the code builds it. -/
def missing_creds (a : Args) (env : Env) : List String :=
  (if truthy env.jira_server then [] else ["JIRA_SERVER"]) ++
  (if truthy env.jira_email then [] else ["JIRA_EMAIL"]) ++
  (if truthy env.jira_api_token then [] else ["JIRA_API_TOKEN"]) ++
  (if truthy (effective_github_token a env) then [] else ["GITHUB_TOKEN"])

/-- The cache-hit reply (server.py lines 977-982). -/
def cache_hit_text (path existing : String) : String :=
  "**Found existing report (use regenerate=true to recreate):**\n\n**File:** "
  ++ path ++ "\n\n---\n\n" ++ existing

/-- The aggregated missing-credentials reply (server.py lines 1007-1012). -/
def missing_creds_text (missing : List String) : String :=
  "Error: Missing required credentials: " ++ String.intercalate ", " missing
  ++ "\n\nPlease set these environment variables in your .env file or pass github_token as a parameter."

/-- The import-failure reply (server.py lines 1017-1021). -/
def import_error_text (e : String) : String :=
  "Error: Failed to import team-reports library. Please ensure it\x27s installed: " ++ e

/-- The success reply (server.py lines 1154-1161). -/
def success_text (calc_start calc_end final : String) : String :=
  "**Weekly status report generated successfully!**\n\n**Period:** "
  ++ calc_start ++ " to " ++ calc_end
  ++ "\n**File:** " ++ get_report_path calc_start calc_end
  ++ "\n**Size:** " ++ toString final.length
  ++ " characters\n\n---\n\n" ++ final

/-- The save-failure reply (server.py lines 1146-1151): the error plus
the full report content. -/
def save_error_text (err content : String) : String :=
  "Error: Failed to save report: " ++ err ++ "\n\nReport content:\n\n" ++ content

/-- The catch-all reply of the outer try (server.py lines 1163-1165). -/
def fatal_error_text (e : String) : String :=
  "Error generating weekly status: " ++ e

/-- The pipeline `_generate_weekly_status` (server.py lines 939-1165).
The call to `load_config_with_overrides` on line 985 returns a value the
rest of the function never reads, but it is not effect-free: applying
the caller's overrides can raise (`config[key].update(value)` on a
non-mergeable value under a base source key), after the cache check and
before the credential validation; the exception reaches only the outer
handler, which returns the fatal reply with no collaborator invoked, no
temp file created and nothing saved. -/
def run (a : Args) (env : Env) : RunResult :=
  match get_week_range a.start_date a.end_date env.today with
  | .error e => emptyEffects ("Error: " ++ e)
  | .ok (calc_start_date, calc_end_date) =>
    let cached : Option String := if a.regenerate then none else env.existing_report
    match cached with
    | some existing =>
      emptyEffects (cache_hit_text (get_report_path calc_start_date calc_end_date) existing)
    | none =>
      match load_config_first_raise a.config_overrides with
      | some v => emptyEffects (fatal_error_text (update_raise_msg v))
      | none =>
      if !(missing_creds a env).isEmpty then
        emptyEffects (missing_creds_text (missing_creds a env))
      else if !env.import_ok then
        emptyEffects (import_error_text env.import_err)
      else
        let agg := aggregate a env
        let removed := agg.created.filter (fun f => !env.unlink_fails.contains f)
        match agg.body with
        | .error e =>
          { text := fatal_error_text e,
            invoked := agg.invoked, temp_created := agg.created,
            temp_removed := removed, saved := none }
        | .ok (jira_report, github_report) =>
          let combined := combined_report_text calc_start_date calc_end_date
            jira_report github_report env.now_stamp
          let final := enrich a.generate_summary a.summary_prompt combined
          if env.save_ok then
            { text := success_text calc_start_date calc_end_date final,
              invoked := agg.invoked, temp_created := agg.created,
              temp_removed := removed,
              saved := some (get_report_path calc_start_date calc_end_date, final) }
          else
            { text := save_error_text env.save_err final,
              invoked := agg.invoked, temp_created := agg.created,
              temp_removed := removed, saved := none }

/-- A concrete environment for instantiating the pipeline theorems:
all four credentials present, library import succeeds, both collaborators
succeed, saving succeeds, no cached report, no cleanup failures. -/
def wEnv : Env :=
  { jira_server := some "https://jira.example.com"
    jira_email := some "me@example.com"
    jira_api_token := some "jtok"
    github_token_env := some "ghtok"
    today := 19732
    now_stamp := "2024-01-10 12:00:00"
    existing_report := none
    jira_defaults := some [("base_jql", .s "project = DEFAULT")]
    github_defaults := none
    import_ok := true
    import_err := ""
    jira_temp_name := "tmp/jira_mcp_ab.yaml"
    github_temp_name := "tmp/github_mcp_cd.yaml"
    jira_mkstemp_ok := true
    github_mkstemp_ok := true
    mkstemp_err := ""
    jira_result := .ok "JIRA SECTION"
    github_result := .ok "GITHUB SECTION"
    save_ok := true
    save_err := ""
    unlink_fails := [] }

/-- Concrete arguments for instantiating the pipeline theorems: the
Wednesday 2024-01-10 (day 19732) as start date, everything else
defaulted as in the tool schema. -/
def wArgs : Args :=
  { github_token := none
    start_date := some 19732
    end_date := none
    regenerate := false
    generate_summary := true
    summary_prompt := some "Summarize: {report_content}"
    config_overrides := none }

/-!
Helper lemmas.
-/

theorem ylookup_ystore_self (m : YDict) (k : String) (v : YVal) :
    ylookup (ystore m k v) k = some v := by
  induction m with
  | nil => simp [ystore, ylookup]
  | cons kv rest ih =>
    obtain ⟨k1, v1⟩ := kv
    by_cases h : k1 = k
    · simp [ystore, ylookup, h]
    · simp [ystore, ylookup, h, ih]

theorem ylookup_ystore_of_ne (m : YDict) (k k' : String) (v : YVal)
    (h : k' ≠ k) : ylookup (ystore m k v) k' = ylookup m k' := by
  induction m with
  | nil => simp [ystore, ylookup, Ne.symm h]
  | cons kv rest ih =>
    obtain ⟨k1, v1⟩ := kv
    by_cases h1 : k1 = k
    · subst h1
      simp [ystore, ylookup, Ne.symm h]
    · by_cases h2 : k1 = k'
      · simp [ystore, ylookup, h, h1, h2]
      · simp [ystore, ylookup, h, h1, h2, ih]

theorem ylookup_deep_update_of_not_mem (u : YDict) (b : YDict) (k : String)
    (h : k ∉ u.map Prod.fst) : ylookup (deep_update b u) k = ylookup b k := by
  induction u generalizing b with
  | nil => simp [deep_update]
  | cons kv rest ih =>
    obtain ⟨k1, v1⟩ := kv
    simp only [List.map_cons, List.mem_cons, not_or] at h
    obtain ⟨hk, hrest⟩ := h
    cases v1 with
    | map um =>
      simp only [deep_update]
      cases hb : ylookup b k1 with
      | none => rw [ih _ hrest, ylookup_ystore_of_ne _ _ _ _ hk]
      | some w =>
        cases w with
        | s v => rw [ih _ hrest, ylookup_ystore_of_ne _ _ _ _ hk]
        | i v => rw [ih _ hrest, ylookup_ystore_of_ne _ _ _ _ hk]
        | b v => rw [ih _ hrest, ylookup_ystore_of_ne _ _ _ _ hk]
        | lst v => rw [ih _ hrest, ylookup_ystore_of_ne _ _ _ _ hk]
        | map bm => rw [ih _ hrest, ylookup_ystore_of_ne _ _ _ _ hk]
    | s v =>
      simp only [deep_update]
      rw [ih _ hrest, ylookup_ystore_of_ne _ _ _ _ hk]
    | i v =>
      simp only [deep_update]
      rw [ih _ hrest, ylookup_ystore_of_ne _ _ _ _ hk]
    | b v =>
      simp only [deep_update]
      rw [ih _ hrest, ylookup_ystore_of_ne _ _ _ _ hk]
    | lst v =>
      simp only [deep_update]
      rw [ih _ hrest, ylookup_ystore_of_ne _ _ _ _ hk]

theorem deep_update_single_map (b : YDict) (k : String) (um bm : YDict)
    (h : ylookup b k = some (.map bm)) :
    deep_update b [(k, .map um)] = ystore b k (.map (deep_update bm um)) := by
  simp only [deep_update, h]

theorem deep_update_single_replace (b : YDict) (k : String) (v : YVal)
    (h : ∀ um bm, v = .map um → ylookup b k ≠ some (.map bm)) :
    deep_update b [(k, v)] = ystore b k v := by
  cases v with
  | map um =>
    cases hb : ylookup b k with
    | none => simp [deep_update, hb]
    | some w =>
      cases w with
      | s v => simp [deep_update, hb]
      | i v => simp [deep_update, hb]
      | b v => simp [deep_update, hb]
      | lst v => simp [deep_update, hb]
      | map bm => exact absurd hb (h um bm rfl)
  | s v => simp [deep_update]
  | i v => simp [deep_update]
  | b v => simp [deep_update]
  | lst v => simp [deep_update]

theorem aggregate_of_mkstemp_ok (a : Args) (env : Env)
    (hj : env.jira_mkstemp_ok = true) (hg : env.github_mkstemp_ok = true) :
    (aggregate a env).invoked = ["jira", "github"] ∧
    (aggregate a env).body =
      .ok (jiraSection env.jira_result, githubSection env.github_result) := by
  unfold aggregate agg_github agg_finish
  cases a.config_overrides with
  | none => exact ⟨rfl, rfl⟩
  | some ov =>
    simp only [hj, hg, if_true]
    split_ifs <;> exact ⟨rfl, rfl⟩

/-- The final enriched document of a run whose aggregation completed. -/
def final_document (a : Args) (env : Env) (cs ce : String) : String :=
  enrich a.generate_summary a.summary_prompt
    (combined_report_text cs ce (jiraSection env.jira_result)
      (githubSection env.github_result) env.now_stamp)

theorem run_reaches_save (a : Args) (env : Env) (cs ce : String)
    (hwin : get_week_range a.start_date a.end_date env.today = .ok (cs, ce))
    (hcache : (if a.regenerate then none else env.existing_report) = none)
    (hload : load_config_first_raise a.config_overrides = none)
    (hcreds : missing_creds a env = [])
    (himp : env.import_ok = true)
    (hj : env.jira_mkstemp_ok = true) (hg : env.github_mkstemp_ok = true) :
    run a env =
      if env.save_ok then
        { text := success_text cs ce (final_document a env cs ce),
          invoked := ["jira", "github"],
          temp_created := (aggregate a env).created,
          temp_removed := (aggregate a env).created.filter
            (fun f => !env.unlink_fails.contains f),
          saved := some (get_report_path cs ce, final_document a env cs ce) }
      else
        { text := save_error_text env.save_err (final_document a env cs ce),
          invoked := ["jira", "github"],
          temp_created := (aggregate a env).created,
          temp_removed := (aggregate a env).created.filter
            (fun f => !env.unlink_fails.contains f),
          saved := none } := by
  have hagg := aggregate_of_mkstemp_ok a env hj hg
  unfold run
  rw [hwin]
  simp only [hcache, hload, hcreds, himp, hagg.1, hagg.2, final_document,
    List.isEmpty_nil, Bool.not_true, Bool.false_eq_true, if_false,
    Bool.not_false, if_true]

/-!
Claim theorems.
-/

/-- C1, counterexample.  The claim asserts that for a caller-supplied
Wednesday start date with no end date, the returned end equals start
minus 7 days AND that end's weekday is Tuesday.  At the concrete
Wednesday 2024-01-10 the code indeed returns end = 2024-01-03 = start
minus 7 days, but that date is a Wednesday (weekday 2), not a Tuesday
(weekday 1): a date 7 days earlier always shares the start's weekday. -/
theorem C1_counterexample :
    pyWeekday (daysFromCivil 2024 1 10) = 2 ∧
    get_week_range (some (daysFromCivil 2024 1 10)) none 0 =
      .ok ("2024-01-10", "2024-01-03") ∧
    daysFromCivil 2024 1 10 - 7 = daysFromCivil 2024 1 3 ∧
    ¬ pyWeekday (daysFromCivil 2024 1 3) = 1 :=
  ⟨by decide, rfl, by decide, by decide⟩

/-- C1, amended.  For every caller-supplied start date whose weekday is
Wednesday and with no end date supplied, get_week_range returns an end
date equal to start minus 7 days — and that end date's weekday is
Wednesday (the same weekday as start), not Tuesday; it would fail the
validation applied to an explicitly supplied end date. -/
theorem C1_default_end_weekday (s today : Int) (h : pyWeekday s = 2) :
    get_week_range (some s) none today =
      .ok (dateToStr s, dateToStr (s - 7)) ∧
    pyWeekday (s - 7) = 2 := by
  constructor
  · simp [get_week_range, h]
  · unfold pyWeekday at h ⊢
    omega

/-- C1 witness: the amended theorem applied at Wednesday 2024-01-10
(day number 19732). -/
theorem C1_default_end_weekday_witness :
    pyWeekday 19732 = 2 ∧
    (get_week_range (some 19732) none 19732 =
        .ok (dateToStr 19732, dateToStr (19732 - 7)) ∧
      pyWeekday (19732 - 7) = 2) :=
  ⟨by decide, C1_default_end_weekday 19732 19732 (by decide)⟩

/-- C10: with both start_date and end_date absent, get_week_range never
raises: for every current date it returns (today, today minus 7 days)
formatted as YYYY-MM-DD.  The statement carries no weekday hypothesis on
`today`, so the returned start may fall on any weekday: the
Wednesday/Tuesday validation is not applied on the defaulted path. -/
theorem C10_defaulted_range (today : Int) :
    get_week_range none none today =
      .ok (dateToStr today, dateToStr (today - 7)) := rfl

/-- C7: the report path is the deterministic filename
Weekly_Report_(start)_to_(end).md under the reports directory, with the
start written first; path construction is a pure function, so two calls
yield the identical path; and the concrete window start 2024-01-10 /
end 2024-01-03 yields Weekly_Report_2024-01-10_to_2024-01-03.md. -/
theorem C7_report_path :
    (∀ s e, get_report_path s e = reportsDir ++ "/" ++ report_filename s e) ∧
    (∀ s e, report_filename s e =
      "Weekly_Report_" ++ s ++ "_to_" ++ e ++ ".md") ∧
    (∀ s e, get_report_path s e = get_report_path s e) ∧
    report_filename "2024-01-10" "2024-01-03" =
      "Weekly_Report_2024-01-10_to_2024-01-03.md" :=
  ⟨fun _ _ => rfl, fun _ _ => rfl, fun _ _ => rfl, rfl⟩

/-- C6: merge_config_with_defaults with no overrides returns the loaded
defaults unchanged; with an override mapping for the source name, an
override key whose value and base value are both mappings is merged
recursively, any other override key fully replaces the base value, and
default keys absent from the override — including nested siblings, via
the last conjunct applied inside a recursive merge — are retained
untouched. -/
theorem C6_merge_semantics :
    (∀ d k, merge_config_with_defaults none (some d) k = d) ∧
    (∀ ov d name k, k ∉ ov.map Prod.fst →
      ylookup (merge_config_with_defaults (some [(name, .map ov)]) (some d) name) k
        = ylookup d k) ∧
    (∀ d name k um bm, ylookup d k = some (.map bm) →
      ylookup (merge_config_with_defaults
          (some [(name, .map [(k, .map um)])]) (some d) name) k
        = some (.map (deep_update bm um))) ∧
    (∀ d name k v, (∀ um bm, v = .map um → ylookup d k ≠ some (.map bm)) →
      ylookup (merge_config_with_defaults
          (some [(name, .map [(k, v)])]) (some d) name) k
        = some v) ∧
    (∀ bm um k2, k2 ∉ um.map Prod.fst →
      ylookup (deep_update bm um) k2 = ylookup bm k2) := by
  refine ⟨fun d k => rfl, ?_, ?_, ?_,
    fun bm um k2 h => ylookup_deep_update_of_not_mem um bm k2 h⟩
  · intro ov d name k hk
    simp only [merge_config_with_defaults, ylookup, eq_self_iff_true, if_true]
    exact ylookup_deep_update_of_not_mem ov d k hk
  · intro d name k um bm h
    simp only [merge_config_with_defaults, ylookup, eq_self_iff_true, if_true]
    rw [deep_update_single_map d k um bm h, ylookup_ystore_self]
  · intro d name k v h
    simp only [merge_config_with_defaults, ylookup, eq_self_iff_true, if_true]
    rw [deep_update_single_replace d k v h, ylookup_ystore_self]

/-- C6 witness: each conjunct of the merge theorem applied at concrete
dictionaries. -/
theorem C6_merge_semantics_witness :
    merge_config_with_defaults none (some [("a", .s "x")]) "jira"
      = [("a", .s "x")] ∧
    ("k2" ∉ ([("k", YVal.s "v")] : YDict).map Prod.fst ∧
      ylookup (merge_config_with_defaults (some [("jira", .map [("k", .s "v")])])
          (some [("k", .s "d1"), ("k2", .s "d2")]) "jira") "k2"
        = ylookup [("k", .s "d1"), ("k2", .s "d2")] "k2") ∧
    (ylookup ([("n", YVal.map [("x", YVal.s "d")])] : YDict) "n"
        = some (.map [("x", .s "d")]) ∧
      ylookup (merge_config_with_defaults
          (some [("jira", .map [("n", .map [("y", .s "o")])])])
          (some [("n", .map [("x", .s "d")])]) "jira") "n"
        = some (.map (deep_update [("x", .s "d")] [("y", .s "o")]))) ∧
    ((∀ um bm, YVal.s "w" = .map um →
        ylookup ([("k", YVal.s "d1")] : YDict) "k" ≠ some (.map bm)) ∧
      ylookup (merge_config_with_defaults (some [("jira", .map [("k", .s "w")])])
          (some [("k", .s "d1")]) "jira") "k" = some (.s "w")) ∧
    ("x2" ∉ ([("x", YVal.s "o")] : YDict).map Prod.fst ∧
      ylookup (deep_update [("x", .s "d"), ("x2", .s "d2")] [("x", .s "o")]) "x2"
        = ylookup [("x", .s "d"), ("x2", .s "d2")] "x2") := by
  have h1 : "k2" ∉ ([("k", YVal.s "v")] : YDict).map Prod.fst := by simp
  have h2 : ylookup ([("n", YVal.map [("x", YVal.s "d")])] : YDict) "n"
      = some (.map [("x", .s "d")]) := rfl
  have h3 : ∀ um bm, YVal.s "w" = .map um →
      ylookup ([("k", YVal.s "d1")] : YDict) "k" ≠ some (.map bm) := by
    intro um bm hc hlook
    exact YVal.noConfusion hc
  have h4 : "x2" ∉ ([("x", YVal.s "o")] : YDict).map Prod.fst := by simp
  exact ⟨C6_merge_semantics.1 [("a", .s "x")] "jira",
    ⟨h1, C6_merge_semantics.2.1 _ _ "jira" _ h1⟩,
    ⟨h2, C6_merge_semantics.2.2.1 _ "jira" _ _ _ h2⟩,
    ⟨h3, C6_merge_semantics.2.2.2.1 _ "jira" _ _ h3⟩,
    ⟨h4, C6_merge_semantics.2.2.2.2 _ _ _ h4⟩⟩

/-- C3: on a window with an existing readable cached report and
regenerate = false, the run returns the previously stored content
verbatim plus its location, invokes no external collaborator, creates no
temp file and writes nothing — so the call leaves the world unchanged
and a second call with identical arguments (final trivial conjunct, the
model being a function of the unchanged arguments and world) returns
identical output. -/
theorem C3_cache_hit (a : Args) (env : Env) (cs ce content : String)
    (hwin : get_week_range a.start_date a.end_date env.today = .ok (cs, ce))
    (hreg : a.regenerate = false)
    (hcache : env.existing_report = some content) :
    run a env = emptyEffects (cache_hit_text (get_report_path cs ce) content) ∧
    (run a env).invoked = [] ∧
    (run a env).temp_created = [] ∧
    (run a env).saved = none ∧
    run a env = run a env := by
  have h : run a env = emptyEffects (cache_hit_text (get_report_path cs ce) content) := by
    unfold run
    rw [hwin]
    simp [hreg, hcache]
  exact ⟨h, by rw [h]; rfl, by rw [h]; rfl, by rw [h]; rfl, rfl⟩

/-- C3 witness: the cache-hit theorem applied to a concrete environment
holding the cached report "OLD". -/
theorem C3_cache_hit_witness :
    get_week_range wArgs.start_date wArgs.end_date
        ({ wEnv with existing_report := some "OLD" } : Env).today
      = .ok ("2024-01-10", "2024-01-03") ∧
    wArgs.regenerate = false ∧
    ({ wEnv with existing_report := some "OLD" } : Env).existing_report
      = some "OLD" ∧
    (run wArgs { wEnv with existing_report := some "OLD" }
        = emptyEffects (cache_hit_text (get_report_path "2024-01-10" "2024-01-03") "OLD") ∧
      (run wArgs { wEnv with existing_report := some "OLD" }).invoked = [] ∧
      (run wArgs { wEnv with existing_report := some "OLD" }).temp_created = [] ∧
      (run wArgs { wEnv with existing_report := some "OLD" }).saved = none ∧
      run wArgs { wEnv with existing_report := some "OLD" }
        = run wArgs { wEnv with existing_report := some "OLD" }) :=
  ⟨rfl, rfl, rfl,
    C3_cache_hit wArgs { wEnv with existing_report := some "OLD" }
      "2024-01-10" "2024-01-03" "OLD" rfl rfl rfl⟩

/-- C4, counterexample.  The claim quantifies over every cache-miss run
missing one or more of the four required credentials, but with the
schema-valid overrides config_overrides = ("jira" mapped to the number
5) the program raises inside load_config_with_overrides (server.py line
985: config["jira"].update(5), a TypeError) before the credential
check, and the outer handler returns the fatal reply — not the
aggregated missing-credentials listing — with no collaborator invoked,
no temp file and nothing saved. -/
theorem C4_counterexample :
    load_config_first_raise (some [("jira", YVal.i 5)]) = some (.i 5) ∧
    missing_creds { wArgs with config_overrides := some [("jira", YVal.i 5)] }
        { wEnv with
          jira_server := none,
          jira_email := none,
          jira_api_token := none,
          github_token_env := none }
      = ["JIRA_SERVER", "JIRA_EMAIL", "JIRA_API_TOKEN", "GITHUB_TOKEN"] ∧
    run { wArgs with config_overrides := some [("jira", YVal.i 5)] }
        { wEnv with
          jira_server := none,
          jira_email := none,
          jira_api_token := none,
          github_token_env := none }
      = emptyEffects (fatal_error_text (update_raise_msg (.i 5))) ∧
    ¬ (run { wArgs with config_overrides := some [("jira", YVal.i 5)] }
        { wEnv with
          jira_server := none,
          jira_email := none,
          jira_api_token := none,
          github_token_env := none }).text
      = missing_creds_text
          ["JIRA_SERVER", "JIRA_EMAIL", "JIRA_API_TOKEN", "GITHUB_TOKEN"] := by
  refine ⟨rfl, rfl, rfl, ?_⟩
  decide

/-- C4, amended.  On a cache-miss run whose config-override application
(server.py line 985) does not raise and which is missing one or more of
the four required credentials, the pipeline returns the single
aggregated missing-credentials error and stops with no collaborator
invoked and no temp config file created; with a non-mergeable override
value under a base source key the run instead returns the fatal reply.
The four final conjuncts characterize the reported list as exactly the
absent items: each canonical name is listed iff the corresponding
credential is falsy (with the parameter taking precedence over the
environment for the code-host token). -/
theorem C4_missing_credentials (a : Args) (env : Env) (cs ce : String)
    (hwin : get_week_range a.start_date a.end_date env.today = .ok (cs, ce))
    (hcache : (if a.regenerate then none else env.existing_report) = none)
    (hload : load_config_first_raise a.config_overrides = none)
    (hmiss : missing_creds a env ≠ []) :
    run a env = emptyEffects (missing_creds_text (missing_creds a env)) ∧
    (run a env).invoked = [] ∧
    (run a env).temp_created = [] ∧
    ("JIRA_SERVER" ∈ missing_creds a env ↔ truthy env.jira_server = false) ∧
    ("JIRA_EMAIL" ∈ missing_creds a env ↔ truthy env.jira_email = false) ∧
    ("JIRA_API_TOKEN" ∈ missing_creds a env ↔ truthy env.jira_api_token = false) ∧
    ("GITHUB_TOKEN" ∈ missing_creds a env ↔
      truthy (effective_github_token a env) = false) := by
  have hne : (missing_creds a env).isEmpty = false := by
    cases hm : missing_creds a env with
    | nil => exact absurd hm hmiss
    | cons x xs => rfl
  have h : run a env = emptyEffects (missing_creds_text (missing_creds a env)) := by
    unfold run
    rw [hwin]
    simp [hcache, hload, hne]
  refine ⟨h, by rw [h]; rfl, by rw [h]; rfl, ?_, ?_, ?_, ?_⟩
  all_goals unfold missing_creds
  all_goals cases truthy env.jira_server <;> cases truthy env.jira_email <;>
    cases truthy env.jira_api_token <;>
    cases truthy (effective_github_token a env) <;> decide

/-- C4 witness: the amended missing-credentials theorem applied to the
concrete environment with all four credentials absent and no config
overrides; the reported list is exactly the four canonical names. -/
theorem C4_missing_credentials_witness :
    get_week_range wArgs.start_date wArgs.end_date
        ({ wEnv with
            jira_server := none,
            jira_email := none,
            jira_api_token := none,
            github_token_env := none } : Env).today
      = .ok ("2024-01-10", "2024-01-03") ∧
    load_config_first_raise wArgs.config_overrides = none ∧
    missing_creds wArgs { wEnv with
        jira_server := none,
        jira_email := none,
        jira_api_token := none,
        github_token_env := none }
      = ["JIRA_SERVER", "JIRA_EMAIL", "JIRA_API_TOKEN", "GITHUB_TOKEN"] ∧
    run wArgs { wEnv with
        jira_server := none,
        jira_email := none,
        jira_api_token := none,
        github_token_env := none }
      = emptyEffects (missing_creds_text
          (missing_creds wArgs { wEnv with
            jira_server := none,
            jira_email := none,
            jira_api_token := none,
            github_token_env := none })) := by
  refine ⟨rfl, rfl, rfl, ?_⟩
  exact (C4_missing_credentials wArgs
    { wEnv with
      jira_server := none,
      jira_email := none,
      jira_api_token := none,
      github_token_env := none }
    "2024-01-10" "2024-01-03" rfl rfl rfl (by decide)).1

/-- C2: on a run that reaches the aggregation stage (cache miss,
override application does not raise, credentials present, the library
imports and temp-file creation succeeds), if one external collaborator
raises while the other succeeds — in either direction — the combined
document carries the inline error marker as the failing source's
section and the succeeding source's full text as its section, both
collaborators are invoked, and the run still returns success with the
document saved to the report path. -/
theorem C2_failure_isolation (a : Args) (env : Env) (cs ce : String)
    (hwin : get_week_range a.start_date a.end_date env.today = .ok (cs, ce))
    (hcache : (if a.regenerate then none else env.existing_report) = none)
    (hload : load_config_first_raise a.config_overrides = none)
    (hcreds : missing_creds a env = [])
    (himp : env.import_ok = true)
    (hjms : env.jira_mkstemp_ok = true)
    (hgms : env.github_mkstemp_ok = true)
    (hsave : env.save_ok = true) :
    (∀ m g, env.jira_result = .error m → env.github_result = .ok g →
      (run a env).invoked = ["jira", "github"] ∧
      (run a env).saved = some (get_report_path cs ce,
        enrich a.generate_summary a.summary_prompt
          (combined_report_text cs ce
            ("**Error generating Jira report:** " ++ m ++ "\n\n") g env.now_stamp)) ∧
      (run a env).text = success_text cs ce
        (enrich a.generate_summary a.summary_prompt
          (combined_report_text cs ce
            ("**Error generating Jira report:** " ++ m ++ "\n\n") g env.now_stamp))) ∧
    (∀ m j, env.github_result = .error m → env.jira_result = .ok j →
      (run a env).invoked = ["jira", "github"] ∧
      (run a env).saved = some (get_report_path cs ce,
        enrich a.generate_summary a.summary_prompt
          (combined_report_text cs ce j
            ("**Error generating GitHub report:** " ++ m ++ "\n\n") env.now_stamp)) ∧
      (run a env).text = success_text cs ce
        (enrich a.generate_summary a.summary_prompt
          (combined_report_text cs ce j
            ("**Error generating GitHub report:** " ++ m ++ "\n\n") env.now_stamp))) := by
  have h := run_reaches_save a env cs ce hwin hcache hload hcreds himp hjms hgms
  rw [hsave] at h
  simp only [if_true] at h
  constructor
  · intro m g hjira hgithub
    rw [h]
    unfold final_document
    rw [hjira, hgithub]
    exact ⟨rfl, rfl, rfl⟩
  · intro m j hgithub hjira
    rw [h]
    unfold final_document
    rw [hjira, hgithub]
    exact ⟨rfl, rfl, rfl⟩

/-- C2 witness: the failure-isolation theorem applied in both
directions: once to a concrete environment whose issue-tracker
collaborator raises "boom" (code-host succeeds), and once to one whose
code-host collaborator raises "ghboom" (issue-tracker succeeds). -/
theorem C2_failure_isolation_witness :
    (({ wEnv with jira_result := .error "boom" } : Env).jira_result
        = .error "boom" ∧
      ({ wEnv with jira_result := .error "boom" } : Env).github_result
        = .ok "GITHUB SECTION" ∧
      ((run wArgs { wEnv with jira_result := .error "boom" }).invoked
          = ["jira", "github"] ∧
        (run wArgs { wEnv with jira_result := .error "boom" }).saved
          = some (get_report_path "2024-01-10" "2024-01-03",
            enrich wArgs.generate_summary wArgs.summary_prompt
              (combined_report_text "2024-01-10" "2024-01-03"
                ("**Error generating Jira report:** " ++ "boom" ++ "\n\n")
                "GITHUB SECTION"
                ({ wEnv with jira_result := .error "boom" } : Env).now_stamp)) ∧
        (run wArgs { wEnv with jira_result := .error "boom" }).text
          = success_text "2024-01-10" "2024-01-03"
            (enrich wArgs.generate_summary wArgs.summary_prompt
              (combined_report_text "2024-01-10" "2024-01-03"
                ("**Error generating Jira report:** " ++ "boom" ++ "\n\n")
                "GITHUB SECTION"
                ({ wEnv with jira_result := .error "boom" } : Env).now_stamp)))) ∧
    (({ wEnv with github_result := .error "ghboom" } : Env).github_result
        = .error "ghboom" ∧
      ({ wEnv with github_result := .error "ghboom" } : Env).jira_result
        = .ok "JIRA SECTION" ∧
      ((run wArgs { wEnv with github_result := .error "ghboom" }).invoked
          = ["jira", "github"] ∧
        (run wArgs { wEnv with github_result := .error "ghboom" }).saved
          = some (get_report_path "2024-01-10" "2024-01-03",
            enrich wArgs.generate_summary wArgs.summary_prompt
              (combined_report_text "2024-01-10" "2024-01-03" "JIRA SECTION"
                ("**Error generating GitHub report:** " ++ "ghboom" ++ "\n\n")
                ({ wEnv with github_result := .error "ghboom" } : Env).now_stamp)) ∧
        (run wArgs { wEnv with github_result := .error "ghboom" }).text
          = success_text "2024-01-10" "2024-01-03"
            (enrich wArgs.generate_summary wArgs.summary_prompt
              (combined_report_text "2024-01-10" "2024-01-03" "JIRA SECTION"
                ("**Error generating GitHub report:** " ++ "ghboom" ++ "\n\n")
                ({ wEnv with github_result := .error "ghboom" } : Env).now_stamp)))) :=
  ⟨⟨rfl, rfl,
    (C2_failure_isolation wArgs { wEnv with jira_result := .error "boom" }
        "2024-01-10" "2024-01-03" rfl rfl rfl rfl rfl rfl rfl rfl).1
      "boom" "GITHUB SECTION" rfl rfl⟩,
   ⟨rfl, rfl,
    (C2_failure_isolation wArgs { wEnv with github_result := .error "ghboom" }
        "2024-01-10" "2024-01-03" rfl rfl rfl rfl rfl rfl rfl rfl).2
      "ghboom" "JIRA SECTION" rfl rfl⟩⟩

/-- C8: on a run that reaches the save step (cache miss, override
application does not raise, credentials present, import and temp-file
creation succeed) whose disk write then fails, the pipeline reports the
fatal save error rather than success, nothing is recorded as saved, and
the already-built combined report text is still included verbatim in
the error payload (final conjunct: the reply is a prefix followed by
the full final document). -/
theorem C8_save_failure (a : Args) (env : Env) (cs ce : String)
    (hwin : get_week_range a.start_date a.end_date env.today = .ok (cs, ce))
    (hcache : (if a.regenerate then none else env.existing_report) = none)
    (hload : load_config_first_raise a.config_overrides = none)
    (hcreds : missing_creds a env = [])
    (himp : env.import_ok = true)
    (hjms : env.jira_mkstemp_ok = true)
    (hgms : env.github_mkstemp_ok = true)
    (hsave : env.save_ok = false) :
    (run a env).text = save_error_text env.save_err (final_document a env cs ce) ∧
    (run a env).saved = none ∧
    ∃ p, (run a env).text = p ++ final_document a env cs ce := by
  have h := run_reaches_save a env cs ce hwin hcache hload hcreds himp hjms hgms
  rw [hsave] at h
  simp only [Bool.false_eq_true, if_false] at h
  rw [h]
  exact ⟨rfl, rfl, ⟨"Error: Failed to save report: " ++ env.save_err
    ++ "\n\nReport content:\n\n", rfl⟩⟩

/-- C8 witness: the save-failure theorem applied to the concrete
environment whose disk write fails with "disk full". -/
theorem C8_save_failure_witness :
    get_week_range wArgs.start_date wArgs.end_date
        ({ wEnv with save_ok := false, save_err := "disk full" } : Env).today
      = .ok ("2024-01-10", "2024-01-03") ∧
    load_config_first_raise wArgs.config_overrides = none ∧
    missing_creds wArgs { wEnv with save_ok := false, save_err := "disk full" }
      = [] ∧
    ({ wEnv with save_ok := false, save_err := "disk full" } : Env).save_ok
      = false ∧
    ((run wArgs { wEnv with save_ok := false, save_err := "disk full" }).text
        = save_error_text "disk full"
          (final_document wArgs { wEnv with save_ok := false, save_err := "disk full" }
            "2024-01-10" "2024-01-03") ∧
      (run wArgs { wEnv with save_ok := false, save_err := "disk full" }).saved
        = none ∧
      ∃ p, (run wArgs { wEnv with save_ok := false, save_err := "disk full" }).text
        = p ++ final_document wArgs
            { wEnv with save_ok := false, save_err := "disk full" }
            "2024-01-10" "2024-01-03") :=
  ⟨rfl, rfl, rfl, rfl,
    C8_save_failure wArgs { wEnv with save_ok := false, save_err := "disk full" }
      "2024-01-10" "2024-01-03" rfl rfl rfl rfl rfl rfl rfl rfl⟩

theorem run_unlink_invariant (a : Args) (env : Env) (fails2 : List String) :
    (run a { env with unlink_fails := fails2 }).text = (run a env).text ∧
    (run a { env with unlink_fails := fails2 }).invoked = (run a env).invoked ∧
    (run a { env with unlink_fails := fails2 }).saved = (run a env).saved := by
  have e1 : get_week_range a.start_date a.end_date
      ({ env with unlink_fails := fails2 } : Env).today
      = get_week_range a.start_date a.end_date env.today := rfl
  have e2 : missing_creds a { env with unlink_fails := fails2 }
      = missing_creds a env := rfl
  have e3 : aggregate a { env with unlink_fails := fails2 }
      = aggregate a env := rfl
  have e4 : ({ env with unlink_fails := fails2 } : Env).existing_report
      = env.existing_report := rfl
  have e5 : ({ env with unlink_fails := fails2 } : Env).import_ok
      = env.import_ok := rfl
  have e6 : ({ env with unlink_fails := fails2 } : Env).import_err
      = env.import_err := rfl
  have e7 : ({ env with unlink_fails := fails2 } : Env).now_stamp
      = env.now_stamp := rfl
  have e8 : ({ env with unlink_fails := fails2 } : Env).save_ok
      = env.save_ok := rfl
  have e9 : ({ env with unlink_fails := fails2 } : Env).save_err
      = env.save_err := rfl
  unfold run
  rw [e1, e2, e3, e4, e5, e6, e7, e8, e9]
  dsimp only
  cases hw : get_week_range a.start_date a.end_date env.today with
  | error e => exact ⟨rfl, rfl, rfl⟩
  | ok p =>
    obtain ⟨cs, ce⟩ := p
    cases hc : (if a.regenerate then none else env.existing_report) with
    | some c => exact ⟨rfl, rfl, rfl⟩
    | none =>
      cases hl : load_config_first_raise a.config_overrides with
      | some v => exact ⟨rfl, rfl, rfl⟩
      | none =>
      cases hm : (missing_creds a env).isEmpty with
      | false => exact ⟨rfl, rfl, rfl⟩
      | true =>
        cases hi : env.import_ok with
        | false => exact ⟨rfl, rfl, rfl⟩
        | true =>
          cases hb : (aggregate a env).body with
          | error e => exact ⟨rfl, rfl, rfl⟩
          | ok pr =>
            obtain ⟨jr, gr⟩ := pr
            cases hs : env.save_ok with
            | false => exact ⟨rfl, rfl, rfl⟩
            | true => exact ⟨rfl, rfl, rfl⟩

/-- C5: on every run and every exit of the aggregation stage (both
collaborators complete, one fails — both are absorbed into section
texts — or temp-file creation throws), the removal of every created temp
config file is attempted in the finally-equivalent block: the removed
files are exactly the created ones minus those whose removal itself
fails; and a removal failure is never propagated — the reply text,
collaborator invocations and saved file of the run are unchanged under
any set of removal failures. -/
theorem C5_temp_cleanup (a : Args) (env : Env) :
    (run a env).temp_removed = (run a env).temp_created.filter
      (fun f => !env.unlink_fails.contains f) ∧
    ∀ fails2,
      (run a { env with unlink_fails := fails2 }).text = (run a env).text ∧
      (run a { env with unlink_fails := fails2 }).invoked = (run a env).invoked ∧
      (run a { env with unlink_fails := fails2 }).saved = (run a env).saved := by
  constructor
  · unfold run
    dsimp only
    cases hw : get_week_range a.start_date a.end_date env.today with
    | error e => rfl
    | ok p =>
      obtain ⟨cs, ce⟩ := p
      cases hc : (if a.regenerate then none else env.existing_report) with
      | some c => rfl
      | none =>
        cases hl : load_config_first_raise a.config_overrides with
        | some v => rfl
        | none =>
        cases hm : (missing_creds a env).isEmpty with
        | false => rfl
        | true =>
          cases hi : env.import_ok with
          | false => rfl
          | true =>
            cases hb : (aggregate a env).body with
            | error e => rfl
            | ok pr =>
              obtain ⟨jr, gr⟩ := pr
              cases hs : env.save_ok with
              | false => rfl
              | true => rfl
  · exact fun fails2 => run_unlink_invariant a env fails2

/-- C9, counterexample.  The claim asserts the appended executive
summary block wraps the filled template (placeholder already
substituted).  With the caller template A{report_content}B and combined
report R, the filled template is ARB, but the code appends the block
containing the raw template — line 1134 of server.py interpolates
`prompt`, not the computed `prompt_with_report` — so the output block
wraps A{report_content}B and differs from the block wrapping ARB. -/
theorem C9_counterexample :
    select_prompt (some "A{report_content}B") = "A{report_content}B" ∧
    pyFormat "A{report_content}B" "R" = some "ARB" ∧
    enrich true (some "A{report_content}B") "R"
      = "R" ++ summaryBlock "A{report_content}B" ∧
    ¬ enrich true (some "A{report_content}B") "R"
      = "R" ++ summaryBlock "ARB" := by
  refine ⟨rfl, rfl, rfl, ?_⟩
  decide

/-- C9, amended.  With summary generation enabled, the enricher selects
the caller-supplied prompt template if truthy, else the fixed default
template; it substitutes the {report_content} placeholder with the
combined text (the result is computed but unused), and appends an
"Executive Summary" section whose instruction block wraps the selected
template with the placeholder NOT substituted; if the substitution
raises, the combined text is returned unchanged, as it is when summary
generation is disabled. -/
theorem C9_enrich_behavior :
    (select_prompt none = DEFAULT_SUMMARY_PROMPT) ∧
    (∀ p, p.isEmpty = false → select_prompt (some p) = p) ∧
    (∀ sp c filled, pyFormat (select_prompt sp) c = some filled →
      enrich true sp c = c ++ summaryBlock (select_prompt sp)) ∧
    (∀ sp c, pyFormat (select_prompt sp) c = none → enrich true sp c = c) ∧
    (∀ sp c, enrich false sp c = c) := by
  refine ⟨rfl, ?_, ?_, ?_, fun sp c => rfl⟩
  · intro p hp
    simp [select_prompt, hp]
  · intro sp c filled h
    unfold enrich
    rw [h]
    rfl
  · intro sp c h
    unfold enrich
    rw [h]
    rfl

/-- C9 witness: the amended theorem applied at a concrete caller
template (successful substitution), and at a template whose substitution
raises. -/
theorem C9_enrich_behavior_witness :
    ("A{report_content}B".isEmpty = false ∧
      select_prompt (some "A{report_content}B") = "A{report_content}B") ∧
    (pyFormat (select_prompt (some "A{report_content}B")) "R" = some "ARB" ∧
      enrich true (some "A{report_content}B") "R"
        = "R" ++ summaryBlock (select_prompt (some "A{report_content}B"))) ∧
    (pyFormat (select_prompt (some "A{other}B")) "R" = none ∧
      enrich true (some "A{other}B") "R" = "R") :=
  ⟨⟨rfl, C9_enrich_behavior.2.1 "A{report_content}B" rfl⟩,
    ⟨rfl, C9_enrich_behavior.2.2.1 (some "A{report_content}B") "R" "ARB" rfl⟩,
    ⟨rfl, C9_enrich_behavior.2.2.2.1 (some "A{other}B") "R" rfl⟩⟩

end TeamReports
